import Mathlib

/-!
Verification of the Bali Digital Notary core (DigitalNotary.js and the v2 SSM)
via a shallow embedding: catalogs become an inductive value type, the two
finite state machines become transition functions, persisted configuration
becomes explicit state passing, and the external cryptographic primitives
become an abstract, executable record of functions.
-/

namespace BaliNotary

/-- Kinds of structured exceptions raised by the notary and the SSM. -/
inductive ErrKind where
  | invalidParameter
  | invalidEvent
  | invalidCertificate
  | unsupportedProtocol
  | storageException
  | unexpected
deriving DecidableEq, Repr

/-- A structured exception: its kind and, when it wraps a non-structured
JavaScript error, the message of that original error as its cause. -/
structure BaliErr where
  kind : ErrKind
  cause : Option String
deriving DecidableEq, Repr

/-- An error raised inside an operation body: either an already structured
exception or a raw JavaScript error (a crash such as a TypeError). -/
inductive Raised where
  | structured (e : BaliErr)
  | raw (msg : String)
deriving DecidableEq, Repr

/-- Modelled from the spec: the bali-component-framework exception factory
(used at every catch site as a wrapper of kind unexpected) returns a cause
that is already a structured exception unchanged, and wraps any other error
as a new exception of the given kind carrying the original as its cause. -/
def baliWrap (k : ErrKind) (cause : Raised) : BaliErr :=
  match cause with
  | .structured e => e
  | .raw m => ⟨k, some m⟩

/-- Opaque byte strings (public keys, signatures, digests, serializations). -/
abbrev Bytes := List Nat

mutual
/-- Structured values of the bali component framework that the notary uses:
the none sentinel, tags, versions, moments, binaries, names, text/version
strings, and ordered catalogs with attributes and parameters. -/
inductive Value where
  | noneV
  | tagV (t : Nat)
  | versionV (v : List Nat)
  | momentV (m : Nat)
  | binaryV (b : Bytes)
  | nameV (s : String)
  | textV (s : String)
  | catalogV (attrs : Fields) (params : Fields)

/-- An ordered list of key/value fields of a catalog. -/
inductive Fields where
  | fnil
  | fcons (k : String) (v : Value) (rest : Fields)
end

deriving instance DecidableEq for Value
deriving instance DecidableEq for Fields
deriving instance Repr for Value
deriving instance Repr for Fields

/-- Builds an ordered field list from a plain list of pairs. -/
def Fields.ofList : List (String × Value) → Fields
  | [] => .fnil
  | (k, v) :: rest => .fcons k v (Fields.ofList rest)

/-- Looks up the value stored under a key (the first match, in order). -/
def Fields.lookup : Fields → String → Option Value
  | .fnil, _ => Option.none
  | .fcons k v rest, key => if k = key then some v else Fields.lookup rest key

/-- Replaces the value under an existing key, or appends the association
at the end when the key is absent (the framework's setValue behaviour). -/
def Fields.set : Fields → String → Value → Fields
  | .fnil, key, v => .fcons key v .fnil
  | .fcons k w rest, key, v =>
      if k = key then .fcons k v rest else .fcons k w (Fields.set rest key v)

/-- UTF-8-like encoding of a string as code points. -/
def strBytes (s : String) : List Nat := s.data.map Char.toNat

mutual
/-- Canonical byte serialization of a value (models the framework's
deterministic canonical UTF-8 form). -/
def canonicalBytes : Value → List Nat
  | .noneV => [0]
  | .tagV t => [1, t]
  | .versionV v => 2 :: v.length :: v
  | .momentV m => [3, m]
  | .binaryV b => 4 :: b.length :: b
  | .nameV s => 5 :: strBytes s
  | .textV s => 6 :: strBytes s
  | .catalogV attrs params => 7 :: fieldBytes attrs ++ 8 :: fieldBytes params ++ [9]

/-- Canonical serialization of a key/value field list. -/
def fieldBytes : Fields → List Nat
  | .fnil => []
  | .fcons k v rest => 10 :: strBytes k ++ canonicalBytes v ++ fieldBytes rest
end

/-- Reads a top-level attribute of a catalog value (getValue); any other
value has no attributes, matching JavaScript undefined. -/
def Value.getValue : Value → String → Option Value
  | .catalogV attrs _, key => attrs.lookup key
  | _, _ => Option.none

/-- Reads a parameter of a catalog value (getParameter). -/
def Value.getParameter : Value → String → Option Value
  | .catalogV _ params, key => params.lookup key
  | _, _ => Option.none

/-- Sets (or appends) a top-level attribute of a catalog value (setValue). -/
def Value.setValue : Value → String → Value → Value
  | .catalogV attrs params, key, v => .catalogV (attrs.set key v) params
  | other, _, _ => other

/-- Extraction of a catalog down to the listed keys, in the order given,
keeping the parameters (bali.catalog.extraction). -/
def Value.extraction (v : Value) (keys : List String) : Value :=
  match v with
  | .catalogV attrs params =>
      .catalogV (Fields.ofList (keys.filterMap
        (fun k => (attrs.lookup k).map (fun x => (k, x))))) params
  | other => other

/-- The string form of a value where the code calls toString for a
comparison (protocol version strings and names). -/
def Value.asString : Value → String
  | .textV s => s
  | .nameV s => s
  | _ => ""

/-- The successor of a dot-separated version (nextVersion): increments the
last number. -/
def nextVersionList : List Nat → List Nat
  | [] => [1]
  | [n] => [n + 1]
  | n :: rest => n :: nextVersionList rest

/-- The external cryptographic primitives (supercop Ed25519 and the node
sha512 hasher), embedded as an abstract record of total functions:
createKeyPair takes a seed, sign takes the bytes, the public key and the
private key, verify takes the public key, the signature and the bytes. -/
structure Crypto where
  createKeyPair : Nat → Bytes × Bytes
  sign : Bytes → Bytes → Bytes → Bytes
  verify : Bytes → Bytes → Bytes → Bool
  digest : Bytes → Bytes

/-- The states of the SSM finite state machine (SSM.js STATES). -/
inductive SSMState where
  | keyless
  | loneKey
  | twoKeys
deriving DecidableEq, Repr

/-- The request events of the SSM finite state machine (SSM.js REQUESTS). -/
inductive SSMEvent where
  | generateKeys
  | signBytes
  | rotateKeys
deriving DecidableEq, Repr

/-- The SSM transition table (SSM.js STATES): the allowed next state for
each current state and event, or nothing when the event is illegal. -/
def ssmTransition : SSMState → SSMEvent → Option SSMState
  | .keyless, .generateKeys => some .loneKey
  | .loneKey, .signBytes => some .loneKey
  | .loneKey, .rotateKeys => some .twoKeys
  | .twoKeys, .signBytes => some .loneKey
  | _, _ => Option.none

/-- The SSM's persisted configuration catalog: its tag, current state and
the (optionally present) key attributes. -/
structure SSMConfig where
  tag : Nat
  state : SSMState
  publicKey : Option Bytes
  privateKey : Option Bytes
  previousPublicKey : Option Bytes
  previousPrivateKey : Option Bytes
deriving DecidableEq, Repr

/-- The SSM's world: the persisted configuration file (none when deleted),
the in-memory configuration (none when not yet loaded), and a count of
whole-file writes performed so far. -/
structure SSMEnv where
  file : Option SSMConfig
  mem : Option SSMConfig
  stores : Nat
deriving DecidableEq, Repr

/-- Loads the configuration when not yet in memory (SSM.js
loadConfiguration): reads the file if present, otherwise creates a fresh
default with a new random tag and keyless state and writes it out. -/
def SSM.ensureLoaded (env : SSMEnv) (freshTag : Nat) : SSMConfig × SSMEnv :=
  match env.mem with
  | some cfg => (cfg, env)
  | Option.none =>
    match env.file with
    | some cfg => (cfg, { env with mem := some cfg })
    | Option.none =>
      let cfg : SSMConfig :=
        ⟨freshTag, .keyless, Option.none, Option.none, Option.none, Option.none⟩
      (cfg, ⟨some cfg, some cfg, env.stores + 1⟩)

/-- Whole-file rewrite of the SSM configuration (storeConfiguration). -/
def SSM.storeCfg (cfg : SSMConfig) (env : SSMEnv) : SSMEnv :=
  ⟨some cfg, some cfg, env.stores + 1⟩

/-- SSM.generateKeys: validates the event, generates a key pair from a
fresh seed, writes both keys, transitions and persists; returns the new
public key. -/
def SSM.generateKeys (crypto : Crypto) (seed freshTag : Nat) (env : SSMEnv) :
    Except BaliErr Value × SSMEnv :=
  let le := SSM.ensureLoaded env freshTag
  let cfg := le.1
  let env := le.2
  match ssmTransition cfg.state .generateKeys with
  | Option.none =>
      (.error (baliWrap .unexpected (.structured ⟨.invalidEvent, Option.none⟩)), env)
  | some st =>
    let pair := crypto.createKeyPair seed
    let cfg := { cfg with publicKey := some pair.1, privateKey := some pair.2, state := st }
    (.ok (.binaryV pair.1), SSM.storeCfg cfg env)

/-- SSM.rotateKeys: validates the event, moves the current key pair into
the previous-key attributes, generates a new pair, transitions and
persists; returns the new public key. -/
def SSM.rotateKeys (crypto : Crypto) (seed freshTag : Nat) (env : SSMEnv) :
    Except BaliErr Value × SSMEnv :=
  let le := SSM.ensureLoaded env freshTag
  let cfg := le.1
  let env := le.2
  match ssmTransition cfg.state .rotateKeys with
  | Option.none =>
      (.error (baliWrap .unexpected (.structured ⟨.invalidEvent, Option.none⟩)), env)
  | some st =>
    let cfg := { cfg with previousPublicKey := cfg.publicKey,
                          previousPrivateKey := cfg.privateKey }
    let pair := crypto.createKeyPair seed
    let cfg := { cfg with publicKey := some pair.1, privateKey := some pair.2, state := st }
    (.ok (.binaryV pair.1), SSM.storeCfg cfg env)

/-- SSM.signBytes: validates the event, then applies the key-selection
rule — when the previous public key attribute is present, signs with the
previous key pair and removes both previous-key attributes, otherwise
signs with the current key pair — transitions and persists. -/
def SSM.signBytes (crypto : Crypto) (freshTag : Nat) (bytes : Bytes) (env : SSMEnv) :
    Except BaliErr Value × SSMEnv :=
  let le := SSM.ensureLoaded env freshTag
  let cfg := le.1
  let env := le.2
  match ssmTransition cfg.state .signBytes with
  | Option.none =>
      (.error (baliWrap .unexpected (.structured ⟨.invalidEvent, Option.none⟩)), env)
  | some st =>
    match cfg.previousPublicKey with
    | some ppub =>
      match cfg.previousPrivateKey with
      | Option.none => (.error (baliWrap .unexpected (.raw "TypeError")), env)
      | some ppriv =>
        let cfg := { cfg with previousPublicKey := Option.none,
                              previousPrivateKey := Option.none }
        let signature := crypto.sign bytes ppub ppriv
        let cfg := { cfg with state := st }
        (.ok (.binaryV signature), SSM.storeCfg cfg env)
    | Option.none =>
      match cfg.publicKey, cfg.privateKey with
      | some pub, some priv =>
        let signature := crypto.sign bytes pub priv
        let cfg := { cfg with state := st }
        (.ok (.binaryV signature), SSM.storeCfg cfg env)
      | _, _ => (.error (baliWrap .unexpected (.raw "TypeError")), env)

/-- SSM.eraseKeys: deletes the persisted configuration and clears the
in-memory state; always returns true. -/
def SSM.eraseKeys (env : SSMEnv) : Except BaliErr Bool × SSMEnv :=
  (.ok true, { env with file := Option.none, mem := Option.none })

/-- SSM.digestBytes: a pure digest of the bytes; never touches state. -/
def SSM.digestBytes (crypto : Crypto) (bytes : Bytes) : Except BaliErr Value :=
  .ok (.binaryV (crypto.digest bytes))

/-- SSM.validSignature: verifies the signature over the bytes under the
supplied public key; never touches state.  The key and signature arrive as
possibly-absent values read out of catalogs; a missing or non-binary value
crashes inside the module and surfaces as an unexpected exception. -/
def SSM.validSignature (crypto : Crypto) (aPublicKey signature : Option Value)
    (bytes : Bytes) : Except BaliErr Bool :=
  match aPublicKey, signature with
  | some (.binaryV p), some (.binaryV s) => .ok (crypto.verify p s bytes)
  | _, _ => .error (baliWrap .unexpected (.raw "TypeError"))

/-- SSM.getTag: loads the configuration when needed and returns its tag. -/
def SSM.getTag (freshTag : Nat) (env : SSMEnv) : Except BaliErr Value × SSMEnv :=
  let le := SSM.ensureLoaded env freshTag
  (.ok (.tagV le.1.tag), le.2)

/-- The states of the notary finite state machine (DigitalNotary.js STATES). -/
inductive NotaryState where
  | limited
  | pending
  | enabled
deriving DecidableEq, Repr

/-- The request events of the notary state machine (DigitalNotary.js REQUESTS). -/
inductive NotaryEvent where
  | generateKey
  | activateKey
  | getCitation
  | notarizeComponent
  | refreshKey
deriving DecidableEq, Repr

/-- The notary transition table (DigitalNotary.js STATES): the allowed next
state for each current state and event, or nothing when illegal. -/
def notaryTransition : NotaryState → NotaryEvent → Option NotaryState
  | .limited, .generateKey => some .pending
  | .pending, .activateKey => some .enabled
  | .pending, .notarizeComponent => some .pending
  | .enabled, .getCitation => some .enabled
  | .enabled, .notarizeComponent => some .enabled
  | .enabled, .refreshKey => some .enabled
  | _, _ => Option.none

/-- The notary's persisted configuration catalog: its state and the
(optionally present) current certificate and citation attributes. -/
structure NotaryConfig where
  state : NotaryState
  certificate : Option Value
  citation : Option Value
deriving DecidableEq, Repr

/-- The combined world of one notary instance: the notary's persisted file,
its in-memory configuration, a count of notary file writes, and the
security module's own environment. -/
structure World where
  nFile : Option NotaryConfig
  nMem : Option NotaryConfig
  nStores : Nat
  ssm : SSMEnv
deriving DecidableEq, Repr

/-- The active writing protocol: the first key of the registry
(DigitalNotary.js PROTOCOL). -/
def PROTOCOL : String := "v1"

/-- The protocol registry (DigitalNotary.js PROTOCOLS): a single entry
mapping v1 to its validation security module. -/
def PROTOCOLS (v1mod : Crypto) : List (String × Crypto) := [("v1", v1mod)]

/-- Assoc lookup in the protocol registry. -/
def lookupCrypto : List (String × Crypto) → String → Option Crypto
  | [], _ => Option.none
  | (k, c) :: rest, key => if k = key then some c else lookupCrypto rest key

/-- Selects the security module compatible with a protocol string: the
instance's own module for the active protocol, otherwise the registry
entry, or nothing (unsupported protocol). -/
def selectModule (current v1mod : Crypto) (p : String) : Option Crypto :=
  if p = PROTOCOL then some current else lookupCrypto (PROTOCOLS v1mod) p

/-- Loads the notary configuration when not yet in memory
(DigitalNotary.js loadConfiguration): reads the file if present, otherwise
creates the default limited-state catalog and writes it out. -/
def Notary.ensureLoaded (w : World) : NotaryConfig × World :=
  match w.nMem with
  | some cfg => (cfg, w)
  | Option.none =>
    match w.nFile with
    | some cfg => (cfg, { w with nMem := some cfg })
    | Option.none =>
      let cfg : NotaryConfig := ⟨.limited, Option.none, Option.none⟩
      (cfg, { w with nFile := some cfg, nMem := some cfg, nStores := w.nStores + 1 })

/-- Whole-file rewrite of the notary configuration (storeConfiguration). -/
def Notary.storeCfg (cfg : NotaryConfig) (w : World) : World :=
  { w with nFile := some cfg, nMem := some cfg, nStores := w.nStores + 1 }

/-- DigitalNotary.getProtocols: the list of registered protocol versions. -/
def DigitalNotary.getProtocols (v1mod : Crypto) : Except BaliErr (List String) :=
  .ok ((PROTOCOLS v1mod).map Prod.fst)

/-- The certificate component catalog built by generateKey and refreshKey:
four attributes and five parameters, typed /bali/notary/Certificate/v1. -/
def mkCertComponent (ts account : Nat) (publicKey tg ver previous : Value) : Value :=
  .catalogV
    (Fields.ofList [("$protocol", .textV PROTOCOL), ("$timestamp", .momentV ts),
                    ("$account", .tagV account), ("$publicKey", publicKey)])
    (Fields.ofList [("$type", .nameV "/bali/notary/Certificate/v1"), ("$tag", tg),
                    ("$version", ver),
                    ("$permissions", .nameV "/bali/permissions/public/v1"),
                    ("$previous", previous)])

/-- The notarized document wrapper catalog built by notarizeComponent and
refreshKey, before the signature is embedded: four attributes, typed
/bali/notary/Document/v1. -/
def mkDocumentWrapper (component : Value) (ts : Nat) (certificate : Value) : Value :=
  .catalogV
    (Fields.ofList [("$component", component), ("$protocol", .textV PROTOCOL),
                    ("$timestamp", .momentV ts), ("$certificate", certificate)])
    (Fields.ofList [("$type", .nameV "/bali/notary/Document/v1")])

/-- The citation catalog built by activateKey, citeDocument and refreshKey:
five attributes, typed /bali/notary/Citation/v1. -/
def mkCitation (ts : Nat) (tg ver digestV : Value) : Value :=
  .catalogV
    (Fields.ofList [("$protocol", .textV PROTOCOL), ("$timestamp", .momentV ts),
                    ("$tag", tg), ("$version", ver), ("$digest", digestV)])
    (Fields.ofList [("$type", .nameV "/bali/notary/Citation/v1")])

/-- DigitalNotary.getCitation: transitions on the getCitation event (which
fails when illegal), persists the configuration, and returns the stored
citation attribute. -/
def DigitalNotary.getCitation (w : World) : Except BaliErr (Option Value) × World :=
  let lw := Notary.ensureLoaded w
  let cfg := lw.1
  let w := lw.2
  match notaryTransition cfg.state .getCitation with
  | Option.none =>
      (.error (baliWrap .unexpected (.structured ⟨.invalidEvent, Option.none⟩)), w)
  | some st =>
    let cfg := { cfg with state := st }
    (.ok cfg.citation, Notary.storeCfg cfg w)

/-- DigitalNotary.generateKey: validates the event, generates a key pair in
the SSM, builds the unsigned certificate component with a fresh tag, the
initial version and no previous citation, stashes it, transitions and
persists; returns the unsigned component. -/
def DigitalNotary.generateKey (crypto : Crypto) (account : Nat)
    (seed freshTag ts tagNew : Nat) (w : World) : Except BaliErr Value × World :=
  let lw := Notary.ensureLoaded w
  let cfg := lw.1
  let w := lw.2
  match notaryTransition cfg.state .generateKey with
  | Option.none =>
      (.error (baliWrap .unexpected (.structured ⟨.invalidEvent, Option.none⟩)), w)
  | some st =>
    let sr := SSM.generateKeys crypto seed freshTag w.ssm
    let w := { w with ssm := sr.2 }
    match sr.1 with
    | .error e => (.error (baliWrap .unexpected (.structured e)), w)
    | .ok publicKey =>
      let certificate : Value :=
        mkCertComponent ts account publicKey (.tagV tagNew) (.versionV [1]) .noneV
      let cfg := { cfg with certificate := some certificate, state := st }
      (.ok certificate, Notary.storeCfg cfg w)

/-- DigitalNotary.activateKey: validates the event, checks that the
submitted signed certificate embeds exactly the stashed component (failing
with invalidCertificate otherwise), computes a citation over the canonical
bytes of the signed certificate with the tag and version copied from the
component's parameters, replaces the stashed certificate with the signed
form, stores the citation, transitions and persists; returns the citation. -/
def DigitalNotary.activateKey (crypto : Crypto) (certArg : Value) (ts : Nat)
    (w : World) : Except BaliErr Value × World :=
  let lw := Notary.ensureLoaded w
  let cfg := lw.1
  let w := lw.2
  match notaryTransition cfg.state .activateKey with
  | Option.none =>
      (.error (baliWrap .unexpected (.structured ⟨.invalidEvent, Option.none⟩)), w)
  | some st =>
    let component := certArg.getValue "$component"
    match cfg.certificate with
    | Option.none => (.error (baliWrap .unexpected (.raw "TypeError")), w)
    | some stored =>
      if component ≠ some stored then
        (.error (baliWrap .unexpected
          (.structured ⟨.invalidCertificate, Option.none⟩)), w)
      else
        match component with
        | Option.none => (.error (baliWrap .unexpected (.raw "TypeError")), w)
        | some comp =>
          match comp.getParameter "$tag", comp.getParameter "$version" with
          | some tg, some ver =>
            let bytes := canonicalBytes certArg
            let digest := crypto.digest bytes
            let citation : Value := mkCitation ts tg ver (.binaryV digest)
            let cfg := { cfg with citation := some citation,
                                  certificate := some certArg, state := st }
            (.ok citation, Notary.storeCfg cfg w)
          | _, _ => (.error (baliWrap .unexpected (.raw "TypeError")), w)

/-- DigitalNotary.notarizeComponent: validates the event, builds the
document catalog with the component, the active protocol, a timestamp and
the current citation (or none before activation), signs its canonical
bytes through the SSM, embeds the signature, transitions and persists;
returns the notarized document. -/
def DigitalNotary.notarizeComponent (crypto : Crypto) (component : Value)
    (freshTag ts : Nat) (w : World) : Except BaliErr Value × World :=
  let lw := Notary.ensureLoaded w
  let cfg := lw.1
  let w := lw.2
  match notaryTransition cfg.state .notarizeComponent with
  | Option.none =>
      (.error (baliWrap .unexpected (.structured ⟨.invalidEvent, Option.none⟩)), w)
  | some st =>
    let citVal := match cfg.citation with
      | some c => c
      | Option.none => Value.noneV
    let doc : Value := mkDocumentWrapper component ts citVal
    let bytes := canonicalBytes doc
    let sr := SSM.signBytes crypto freshTag bytes w.ssm
    let w := { w with ssm := sr.2 }
    match sr.1 with
    | .error e => (.error (baliWrap .unexpected (.structured e)), w)
    | .ok signature =>
      let doc := doc.setValue "$signature" signature
      let cfg := { cfg with state := st }
      (.ok doc, Notary.storeCfg cfg w)

/-- DigitalNotary.validDocument: separates the signature from the document
by extracting only the component, protocol, timestamp and certificate
attributes in that order, reads the public key and the protocol from the
certifying document, selects a compatible security module (failing with
unsupportedProtocol when the registry has none), and verifies the
signature over the canonical bytes of the extraction.  Touches no state. -/
def DigitalNotary.validDocument (current v1mod : Crypto) (doc certArg : Value) :
    Except BaliErr Bool :=
  let catalog := doc.extraction ["$component", "$protocol", "$timestamp", "$certificate"]
  let signature := doc.getValue "$signature"
  let publicKey := certArg.getValue "$publicKey"
  match certArg.getValue "$protocol" with
  | Option.none => .error (baliWrap .unexpected (.raw "TypeError"))
  | some p =>
    match selectModule current v1mod p.asString with
    | Option.none =>
        .error (baliWrap .unexpected
          (.structured ⟨.unsupportedProtocol, Option.none⟩))
    | some m =>
      let bytes := canonicalBytes catalog
      match SSM.validSignature m publicKey signature bytes with
      | .error e => .error (baliWrap .unexpected (.structured e))
      | .ok r => .ok r

/-- DigitalNotary.citeDocument: builds a citation for a notarized document
with the tag and version taken from the embedded component's parameters,
the active protocol, a fresh timestamp, and a digest over the document's
full canonical bytes (including its signature).  Touches no state. -/
def DigitalNotary.citeDocument (crypto : Crypto) (doc : Value) (ts : Nat) :
    Except BaliErr Value :=
  match doc.getValue "$component" with
  | Option.none => .error (baliWrap .unexpected (.raw "TypeError"))
  | some component =>
    match component.getParameter "$tag", component.getParameter "$version" with
    | some tg, some ver =>
      let bytes := canonicalBytes doc
      let digest := crypto.digest bytes
      .ok (mkCitation ts tg ver (.binaryV digest))
    | _, _ => .error (baliWrap .unexpected (.raw "TypeError"))

/-- DigitalNotary.citationMatches: selects the security module matching the
citation's protocol (failing with unsupportedProtocol when the registry
has none), recomputes the digest over the document's canonical bytes and
compares it bytewise with the citation's digest.  Touches no state. -/
def DigitalNotary.citationMatches (current v1mod : Crypto) (citation doc : Value) :
    Except BaliErr Bool :=
  match citation.getValue "$protocol" with
  | Option.none => .error (baliWrap .unexpected (.raw "TypeError"))
  | some p =>
    match selectModule current v1mod p.asString with
    | Option.none =>
        .error (baliWrap .unexpected
          (.structured ⟨.unsupportedProtocol, Option.none⟩))
    | some m =>
      let bytes := canonicalBytes doc
      let digest := m.digest bytes
      .ok (decide (citation.getValue "$digest" = some (Value.binaryV digest)))

/-- DigitalNotary.refreshKey: validates the event, rotates the SSM keys,
builds the successor certificate component (same tag, next version,
previous set to the current citation), wraps it as a notarized document
whose certificate attribute is the current citation, signs it (the SSM
key-selection rule uses the rotated-out private key), stores the signed
certificate and a fresh citation over its bytes, transitions and persists;
returns the signed certificate. -/
def DigitalNotary.refreshKey (crypto : Crypto) (account : Nat)
    (seed freshTag ts : Nat) (w : World) : Except BaliErr Value × World :=
  let lw := Notary.ensureLoaded w
  let cfg := lw.1
  let w := lw.2
  match notaryTransition cfg.state .refreshKey with
  | Option.none =>
      (.error (baliWrap .unexpected (.structured ⟨.invalidEvent, Option.none⟩)), w)
  | some st =>
    let rr := SSM.rotateKeys crypto seed freshTag w.ssm
    let w := { w with ssm := rr.2 }
    match rr.1 with
    | .error e => (.error (baliWrap .unexpected (.structured e)), w)
    | .ok publicKey =>
      match cfg.citation with
      | Option.none => (.error (baliWrap .unexpected (.raw "TypeError")), w)
      | some citation =>
        match citation.getValue "$tag", citation.getValue "$version" with
        | some tg, some (.versionV vs) =>
          let ver : Value := .versionV (nextVersionList vs)
          let component : Value := mkCertComponent ts account publicKey tg ver citation
          let certificate : Value := mkDocumentWrapper component ts citation
          let bytes := canonicalBytes certificate
          let sr := SSM.signBytes crypto freshTag bytes w.ssm
          let w := { w with ssm := sr.2 }
          match sr.1 with
          | .error e => (.error (baliWrap .unexpected (.structured e)), w)
          | .ok signature =>
            let certificate := certificate.setValue "$signature" signature
            let cfg := { cfg with certificate := some certificate }
            let bytes2 := canonicalBytes certificate
            let digest := crypto.digest bytes2
            let citation2 : Value := mkCitation ts tg ver (.binaryV digest)
            let cfg := { cfg with citation := some citation2, state := st }
            (.ok certificate, Notary.storeCfg cfg w)
        | _, _ => (.error (baliWrap .unexpected (.raw "TypeError")), w)

/-- DigitalNotary.forgetKey: erases the SSM keys, deletes the notary's
persisted configuration and clears the in-memory state. -/
def DigitalNotary.forgetKey (w : World) : Except BaliErr Unit × World :=
  let er := SSM.eraseKeys w.ssm
  let w := { w with ssm := er.2 }
  (.ok (), { w with nFile := Option.none, nMem := Option.none })

/-- Discards the payload of a successful result, keeping the error. -/
def dropOk {α : Type} : Except BaliErr α → Except BaliErr Unit
  | .ok _ => .ok ()
  | .error e => .error e

/-- The arguments a notary event may consume, bundled so the state-machine
safety property can quantify over one uniform invocation. -/
structure NotaryArgs where
  account : Nat
  seed : Nat
  freshTag : Nat
  ts : Nat
  tagNew : Nat
  certArg : Value
  comp : Value

/-- Dispatches a notary event to the corresponding operation. -/
def notaryStep (crypto : Crypto) (e : NotaryEvent) (a : NotaryArgs) (w : World) :
    Except BaliErr Unit × World :=
  match e with
  | .generateKey =>
    let r := DigitalNotary.generateKey crypto a.account a.seed a.freshTag a.ts a.tagNew w
    (dropOk r.1, r.2)
  | .activateKey =>
    let r := DigitalNotary.activateKey crypto a.certArg a.ts w
    (dropOk r.1, r.2)
  | .getCitation =>
    let r := DigitalNotary.getCitation w
    (dropOk r.1, r.2)
  | .notarizeComponent =>
    let r := DigitalNotary.notarizeComponent crypto a.comp a.freshTag a.ts w
    (dropOk r.1, r.2)
  | .refreshKey =>
    let r := DigitalNotary.refreshKey crypto a.account a.seed a.freshTag a.ts w
    (dropOk r.1, r.2)

/-- Dispatches an SSM event to the corresponding operation. -/
def ssmStep (crypto : Crypto) (e : SSMEvent) (seed freshTag : Nat) (bytes : Bytes)
    (env : SSMEnv) : Except BaliErr Unit × SSMEnv :=
  match e with
  | .generateKeys =>
    let r := SSM.generateKeys crypto seed freshTag env
    (dropOk r.1, r.2)
  | .signBytes =>
    let r := SSM.signBytes crypto freshTag bytes env
    (dropOk r.1, r.2)
  | .rotateKeys =>
    let r := SSM.rotateKeys crypto seed freshTag env
    (dropOk r.1, r.2)

/-- Modelled from the spec's wording of validDocument, for comparison with
the source translation: identical to DigitalNotary.validDocument except
that the protocol is read from the certifying document's component
attribute, as the spec sentence states. -/
def validDocumentClaim (current v1mod : Crypto) (doc certArg : Value) :
    Except BaliErr Bool :=
  let catalog := doc.extraction ["$component", "$protocol", "$timestamp", "$certificate"]
  let signature := doc.getValue "$signature"
  let publicKey := certArg.getValue "$publicKey"
  match (certArg.getValue "$component").bind (fun c => c.getValue "$protocol") with
  | Option.none => .error (baliWrap .unexpected (.raw "TypeError"))
  | some p =>
    match selectModule current v1mod p.asString with
    | Option.none =>
        .error (baliWrap .unexpected
          (.structured ⟨.unsupportedProtocol, Option.none⟩))
    | some m =>
      let bytes := canonicalBytes catalog
      match SSM.validSignature m publicKey signature bytes with
      | .error e => .error (baliWrap .unexpected (.structured e))
      | .ok r => .ok r

/-- The exception kinds the propagation policy lists as thrown directly. -/
def specificKinds : List ErrKind :=
  [.invalidParameter, .invalidEvent, .invalidCertificate,
   .unsupportedProtocol, .storageException]

/-- A concrete, executable instance of the cryptographic primitives used
by the witnesses: signatures prepend the public key to the bytes, the
digest prefixes a marker byte (and is injective). -/
def toyCrypto : Crypto :=
  ⟨fun seed => ([seed], [seed + 1]),
   fun b pub _ => pub ++ b,
   fun pub sig b => sig == pub ++ b,
   fun b => 0 :: b⟩

/-- A loaded SSM configuration holding two key pairs, used as a witness. -/
def c1cfg : SSMConfig := ⟨7, .twoKeys, some [1], some [2], some [3], some [4]⟩

/-- An SSM world whose file and memory hold that configuration. -/
def c1env : SSMEnv := ⟨some c1cfg, some c1cfg, 0⟩

/-- C1: in a legal state, SSM.signBytes signs with the previous private
key and removes both previous-key fields when a previous key pair is held,
otherwise signs with the current private key; on success the state becomes
loneKey (twoKeys to loneKey, or loneKey to loneKey) and is persisted. -/
theorem C1_signBytes_key_selection (crypto : Crypto) (env : SSMEnv)
    (cfg : SSMConfig) (ft : Nat) (bytes : Bytes)
    (hmem : env.mem = some cfg)
    (hstate : cfg.state = .loneKey ∨ cfg.state = .twoKeys) :
    (∀ ppub ppriv, cfg.previousPublicKey = some ppub →
      cfg.previousPrivateKey = some ppriv →
      SSM.signBytes crypto ft bytes env =
        (.ok (.binaryV (crypto.sign bytes ppub ppriv)),
         SSM.storeCfg { cfg with previousPublicKey := Option.none,
                                 previousPrivateKey := Option.none,
                                 state := .loneKey } env)) ∧
    (∀ pub priv, cfg.previousPublicKey = Option.none →
      cfg.publicKey = some pub → cfg.privateKey = some priv →
      SSM.signBytes crypto ft bytes env =
        (.ok (.binaryV (crypto.sign bytes pub priv)),
         SSM.storeCfg { cfg with state := .loneKey } env)) := by
  constructor
  · intro ppub ppriv hpp hpq
    rcases hstate with h | h <;>
      simp [SSM.signBytes, SSM.ensureLoaded, hmem, h, hpp, hpq, ssmTransition]
  · intro pub priv hpn hpub hpriv
    rcases hstate with h | h <;>
      simp [SSM.signBytes, SSM.ensureLoaded, hmem, h, hpn, hpub, hpriv, ssmTransition]

/-- C1 witness: the theorem applied to a concrete two-key configuration. -/
theorem C1_signBytes_key_selection_witness :
    SSM.signBytes toyCrypto 9 [5] c1env =
      (.ok (.binaryV (toyCrypto.sign [5] [3] [4])),
       SSM.storeCfg { c1cfg with previousPublicKey := Option.none,
                                 previousPrivateKey := Option.none,
                                 state := .loneKey } c1env) :=
  (C1_signBytes_key_selection toyCrypto c1env c1cfg 9 [5] rfl (Or.inr rfl)).1
    [3] [4] rfl rfl

/-- C4: for every (state, event) pair outside the allowed transition
tables of the notary and SSM state machines, the operation fails with an
invalidEvent exception and leaves the persisted files (including the
stored state) unchanged. -/
theorem C4_state_machine_safety :
    (∀ (crypto : Crypto) (a : NotaryArgs) (w : World) (cfg : NotaryConfig)
       (e : NotaryEvent), w.nMem = some cfg →
       notaryTransition cfg.state e = Option.none →
       (notaryStep crypto e a w).1 = .error ⟨.invalidEvent, Option.none⟩ ∧
       (notaryStep crypto e a w).2.nFile = w.nFile ∧
       (notaryStep crypto e a w).2.ssm.file = w.ssm.file ∧
       (notaryStep crypto e a w).2.nMem = some cfg) ∧
    (∀ (crypto : Crypto) (seed ft : Nat) (bytes : Bytes) (env : SSMEnv)
       (scfg : SSMConfig) (e : SSMEvent), env.mem = some scfg →
       ssmTransition scfg.state e = Option.none →
       (ssmStep crypto e seed ft bytes env).1 = .error ⟨.invalidEvent, Option.none⟩ ∧
       (ssmStep crypto e seed ft bytes env).2.file = env.file ∧
       (ssmStep crypto e seed ft bytes env).2.mem = some scfg) := by
  constructor
  · intro crypto a w cfg e hmem htr
    cases e <;>
      simp [notaryStep, DigitalNotary.generateKey, DigitalNotary.activateKey,
            DigitalNotary.getCitation, DigitalNotary.notarizeComponent,
            DigitalNotary.refreshKey, Notary.ensureLoaded, hmem, htr,
            dropOk, baliWrap]
  · intro crypto seed ft bytes env scfg e hmem htr
    cases e <;>
      simp [ssmStep, SSM.generateKeys, SSM.signBytes, SSM.rotateKeys,
            SSM.ensureLoaded, hmem, htr, dropOk, baliWrap]

/-- C4 witness: calling getCitation from the limited state. -/
theorem C4_state_machine_safety_witness :
    (notaryStep toyCrypto .getCitation
      ⟨0, 0, 0, 0, 0, .noneV, .noneV⟩
      ⟨some ⟨.limited, Option.none, Option.none⟩,
       some ⟨.limited, Option.none, Option.none⟩, 0,
       ⟨Option.none, Option.none, 0⟩⟩).1 =
      .error ⟨.invalidEvent, Option.none⟩ :=
  (C4_state_machine_safety.1 toyCrypto ⟨0, 0, 0, 0, 0, .noneV, .noneV⟩
    ⟨some ⟨.limited, Option.none, Option.none⟩,
     some ⟨.limited, Option.none, Option.none⟩, 0,
     ⟨Option.none, Option.none, 0⟩⟩
    ⟨.limited, Option.none, Option.none⟩ .getCitation rfl rfl).1

/-- C9: a successful getCitation in the enabled state performs a state
machine transition and rewrites the notary's persisted configuration file
(one more whole-file store) even though it only returns the stored
citation and the stored content is unchanged. -/
theorem C9_getCitation_frame_effect (w : World) (cfg : NotaryConfig)
    (hmem : w.nMem = some cfg) (hstate : cfg.state = .enabled) :
    DigitalNotary.getCitation w = (.ok cfg.citation, Notary.storeCfg cfg w) ∧
    (Notary.storeCfg cfg w).nStores = w.nStores + 1 ∧
    (Notary.storeCfg cfg w).nFile = some cfg ∧
    notaryTransition cfg.state .getCitation = some cfg.state := by
  refine ⟨?_, rfl, rfl, ?_⟩
  · simp only [DigitalNotary.getCitation, Notary.ensureLoaded, hmem, hstate,
               notaryTransition]
    rw [← hstate]
  · rw [hstate]
    rfl

/-- C9 witness: getCitation on a concrete enabled configuration. -/
theorem C9_getCitation_frame_effect_witness :
    DigitalNotary.getCitation
      ⟨some ⟨.enabled, Option.none, some (.textV "c")⟩,
       some ⟨.enabled, Option.none, some (.textV "c")⟩, 3,
       ⟨Option.none, Option.none, 0⟩⟩ =
      (.ok (some (.textV "c")),
       Notary.storeCfg ⟨.enabled, Option.none, some (.textV "c")⟩
        ⟨some ⟨.enabled, Option.none, some (.textV "c")⟩,
         some ⟨.enabled, Option.none, some (.textV "c")⟩, 3,
         ⟨Option.none, Option.none, 0⟩⟩) :=
  (C9_getCitation_frame_effect
    ⟨some ⟨.enabled, Option.none, some (.textV "c")⟩,
     some ⟨.enabled, Option.none, some (.textV "c")⟩, 3,
     ⟨Option.none, Option.none, 0⟩⟩
    ⟨.enabled, Option.none, some (.textV "c")⟩ rfl rfl).1

/-- C8: after forgetKey no persisted file exists for the notary or the
SSM and the in-memory state is cleared; the next getCitation fails with
invalidEvent; eraseKeys is idempotent (a second call also returns true);
after erasure the SSM re-initializes with a fresh tag in the keyless state
and the notary restarts from limited. -/
theorem C8_forgetKey_erases (w : World) (ft : Nat) :
    (DigitalNotary.forgetKey w).1 = .ok () ∧
    (DigitalNotary.forgetKey w).2.nFile = Option.none ∧
    (DigitalNotary.forgetKey w).2.ssm.file = Option.none ∧
    (DigitalNotary.forgetKey w).2.nMem = Option.none ∧
    (DigitalNotary.forgetKey w).2.ssm.mem = Option.none ∧
    (DigitalNotary.getCitation (DigitalNotary.forgetKey w).2).1 =
      .error ⟨.invalidEvent, Option.none⟩ ∧
    (SSM.eraseKeys (DigitalNotary.forgetKey w).2.ssm).1 = .ok true ∧
    (SSM.eraseKeys (SSM.eraseKeys (DigitalNotary.forgetKey w).2.ssm).2).1 = .ok true ∧
    (SSM.ensureLoaded (DigitalNotary.forgetKey w).2.ssm ft).1 =
      ⟨ft, .keyless, Option.none, Option.none, Option.none, Option.none⟩ ∧
    (SSM.getTag ft (DigitalNotary.forgetKey w).2.ssm).1 = .ok (.tagV ft) ∧
    (Notary.ensureLoaded (DigitalNotary.forgetKey w).2).1 =
      ⟨.limited, Option.none, Option.none⟩ := by
  simp [DigitalNotary.forgetKey, SSM.eraseKeys, DigitalNotary.getCitation,
        Notary.ensureLoaded, notaryTransition, SSM.ensureLoaded, SSM.getTag,
        baliWrap]

/-- C6: in the pending state, activateKey fails with invalidCertificate
and changes nothing when the submitted certificate's component is not
structurally equal to the stashed certificate; otherwise it computes a
citation over the canonical bytes of the signed certificate with the tag
and version copied from the component's parameters, replaces the stashed
certificate with the signed form, stores the citation, transitions to
enabled, persists, and returns the citation. -/
theorem C6_activateKey (crypto : Crypto) (certArg : Value) (ts : Nat)
    (w : World) (cfg : NotaryConfig) (stored : Value)
    (hmem : w.nMem = some cfg) (hstate : cfg.state = .pending)
    (hcert : cfg.certificate = some stored) :
    (certArg.getValue "$component" ≠ some stored →
      DigitalNotary.activateKey crypto certArg ts w =
        (.error ⟨.invalidCertificate, Option.none⟩, w)) ∧
    (∀ tg ver, certArg.getValue "$component" = some stored →
      stored.getParameter "$tag" = some tg →
      stored.getParameter "$version" = some ver →
      DigitalNotary.activateKey crypto certArg ts w =
        (.ok (mkCitation ts tg ver (.binaryV (crypto.digest (canonicalBytes certArg)))),
         Notary.storeCfg
           ⟨.enabled, some certArg,
            some (mkCitation ts tg ver
              (.binaryV (crypto.digest (canonicalBytes certArg))))⟩ w)) := by
  constructor
  · intro hne
    simp [DigitalNotary.activateKey, Notary.ensureLoaded, hmem, hstate,
          notaryTransition, hcert, hne, baliWrap]
  · intro tg ver heq htg hver
    simp [DigitalNotary.activateKey, Notary.ensureLoaded, hmem, hstate,
          notaryTransition, hcert, heq, htg, hver, baliWrap]

/-- The stashed unsigned component used by the C6 witness. -/
def c6stored : Value :=
  mkCertComponent 1 2 (.binaryV [1]) (.tagV 3) (.versionV [1]) .noneV

/-- The signed certificate submitted by the C6 witness. -/
def c6certArg : Value := (mkDocumentWrapper c6stored 1 .noneV).setValue
  "$signature" (.binaryV [9])

/-- The pending-state world used by the C6 witness. -/
def c6world : World :=
  ⟨some ⟨.pending, some c6stored, Option.none⟩,
   some ⟨.pending, some c6stored, Option.none⟩, 0,
   ⟨Option.none, Option.none, 0⟩⟩

/-- C6 witness: activating the matching signed certificate. -/
theorem C6_activateKey_witness :
    DigitalNotary.activateKey toyCrypto c6certArg 5 c6world =
      (.ok (mkCitation 5 (.tagV 3) (.versionV [1])
        (.binaryV (toyCrypto.digest (canonicalBytes c6certArg)))),
       Notary.storeCfg
         ⟨.enabled, some c6certArg,
          some (mkCitation 5 (.tagV 3) (.versionV [1])
            (.binaryV (toyCrypto.digest (canonicalBytes c6certArg))))⟩ c6world) :=
  (C6_activateKey toyCrypto c6certArg 5 c6world
    ⟨.pending, some c6stored, Option.none⟩ c6stored rfl rfl rfl).2
    (.tagV 3) (.versionV [1]) (by decide) (by decide) (by decide)

/-- The toy digest is injective, so byte differences are detectable. -/
theorem toyDigest_injective : Function.Injective toyCrypto.digest := by
  intro a b h
  simpa [toyCrypto] using h

/-- C7: for any notarized document, citationMatches accepts the citation
produced by citeDocument (the digest is computed over the document's full
canonical bytes and compared bytewise), and rejects every document whose
canonical byte serialization differs, provided the digest is injective. -/
theorem C7_citation_round_trip (crypto v1mod : Crypto) (doc : Value) (ts : Nat)
    (comp tg ver : Value)
    (hcomp : doc.getValue "$component" = some comp)
    (htg : comp.getParameter "$tag" = some tg)
    (hver : comp.getParameter "$version" = some ver) :
    DigitalNotary.citeDocument crypto doc ts =
      .ok (mkCitation ts tg ver (.binaryV (crypto.digest (canonicalBytes doc)))) ∧
    DigitalNotary.citationMatches crypto v1mod
      (mkCitation ts tg ver (.binaryV (crypto.digest (canonicalBytes doc)))) doc =
      .ok true ∧
    (∀ doc2, Function.Injective crypto.digest →
      canonicalBytes doc2 ≠ canonicalBytes doc →
      DigitalNotary.citationMatches crypto v1mod
        (mkCitation ts tg ver (.binaryV (crypto.digest (canonicalBytes doc)))) doc2 =
        .ok false) := by
  refine ⟨?_, ?_, ?_⟩
  · simp [DigitalNotary.citeDocument, hcomp, htg, hver]
  · simp [DigitalNotary.citationMatches, mkCitation, Fields.ofList,
          Fields.lookup, Value.getValue, Value.asString, selectModule, PROTOCOL]
  · intro doc2 hinj hne
    simp only [DigitalNotary.citationMatches, mkCitation, Fields.ofList,
               Fields.lookup, Value.getValue, Value.asString, selectModule,
               PROTOCOL]
    simp only [reduceIte]
    simp only [Except.ok.injEq, decide_eq_false_iff_not]
    intro h
    exact hne (hinj (Value.binaryV.injEq _ _ ▸ (Option.some.injEq _ _ ▸ h)).symm)

/-- The notarized document used by the C7 witness. -/
def c7doc : Value := (mkDocumentWrapper
  (mkCertComponent 1 2 (.binaryV [1]) (.tagV 3) (.versionV [1]) .noneV) 4 .noneV).setValue
  "$signature" (.binaryV [8])

/-- C7 witness: the round trip on a concrete document and the mismatch on
a document with different canonical bytes. -/
theorem C7_citation_round_trip_witness :
    DigitalNotary.citeDocument toyCrypto c7doc 6 =
      .ok (mkCitation 6 (.tagV 3) (.versionV [1])
        (.binaryV (toyCrypto.digest (canonicalBytes c7doc)))) ∧
    DigitalNotary.citationMatches toyCrypto toyCrypto
      (mkCitation 6 (.tagV 3) (.versionV [1])
        (.binaryV (toyCrypto.digest (canonicalBytes c7doc)))) c7doc = .ok true ∧
    DigitalNotary.citationMatches toyCrypto toyCrypto
      (mkCitation 6 (.tagV 3) (.versionV [1])
        (.binaryV (toyCrypto.digest (canonicalBytes c7doc)))) .noneV = .ok false := by
  have h := C7_citation_round_trip toyCrypto toyCrypto c7doc 6
    (mkCertComponent 1 2 (.binaryV [1]) (.tagV 3) (.versionV [1]) .noneV)
    (.tagV 3) (.versionV [1]) (by decide) (by decide) (by decide)
  exact ⟨h.1, h.2.1, h.2.2 .noneV toyDigest_injective (by decide)⟩

/-- The inner certificate component of the C3 counterexample, carrying
protocol v1. -/
def cx3inner : Value := .catalogV
  (Fields.ofList [("$protocol", .textV "v1"), ("$publicKey", .binaryV [1])])
  .fnil

/-- A certifying document whose component says protocol v1 while its own
protocol attribute says v99. -/
def cx3cert : Value := .catalogV
  (Fields.ofList [("$component", cx3inner), ("$protocol", .textV "v99"),
                  ("$publicKey", .binaryV [1])])
  .fnil

/-- A certifying certificate component of the usual shape (protocol v1 and
public key read directly), used by the C3 witness. -/
def cx3vcert : Value := .catalogV
  (Fields.ofList [("$protocol", .textV "v1"), ("$timestamp", .momentV 0),
                  ("$account", .tagV 2), ("$publicKey", .binaryV [1])])
  .fnil

/-- A notarized document input for C3. -/
def cx3doc : Value := .catalogV
  (Fields.ofList [("$component", .textV "x"), ("$protocol", .textV "v1"),
                  ("$timestamp", .momentV 0), ("$certificate", .noneV),
                  ("$signature", .binaryV [2])])
  (Fields.ofList [("$type", .nameV "/bali/notary/Document/v1")])

/-- C3 counterexample: the claim says the protocol is read from the
certifying document's component; on this input that component carries
protocol v1, which the registry supports, so the claim predicts the
validSignature result — yet the code reads the certifying document's own
protocol attribute (v99 here) and fails with unsupportedProtocol. -/
theorem C3_validDocument_counterexample :
    DigitalNotary.validDocument toyCrypto toyCrypto cx3doc cx3cert =
      .error ⟨.unsupportedProtocol, Option.none⟩ ∧
    (cx3cert.getValue "$component").bind (fun c => c.getValue "$protocol") =
      some (.textV "v1") ∧
    (PROTOCOLS toyCrypto).map Prod.fst = ["v1"] ∧
    validDocumentClaim toyCrypto toyCrypto cx3doc cx3cert = .ok false :=
  ⟨rfl, rfl, rfl, rfl⟩

/-- C3 (amended): validDocument reads the protocol from the certifying
document's own protocol attribute (not from its component), selects a
compatible security module failing with unsupportedProtocol when the
registry has none, extracts the public key and signature, and returns the
verification of the signature over the serialization of a copy of the
document with only the component, protocol, timestamp and certificate
attributes in that order. -/
theorem C3_validDocument_amended (current v1mod : Crypto) (doc certArg p : Value)
    (hp : certArg.getValue "$protocol" = some p) :
    (p.asString ≠ "v1" →
      DigitalNotary.validDocument current v1mod doc certArg =
        .error ⟨.unsupportedProtocol, Option.none⟩) ∧
    (∀ pk sig, p.asString = "v1" →
      certArg.getValue "$publicKey" = some (.binaryV pk) →
      doc.getValue "$signature" = some (.binaryV sig) →
      DigitalNotary.validDocument current v1mod doc certArg =
        .ok (current.verify pk sig (canonicalBytes
          (doc.extraction ["$component", "$protocol", "$timestamp", "$certificate"])))) := by
  constructor
  · intro hne
    simp [DigitalNotary.validDocument, hp, selectModule, PROTOCOL,
          lookupCrypto, PROTOCOLS, hne, Ne.symm hne, baliWrap]
  · intro pk sig hps hpk hsig
    simp [DigitalNotary.validDocument, hp, hps, selectModule, PROTOCOL,
          SSM.validSignature, hpk, hsig]

/-- C3 witness: the amended characterization applied to a concrete
document with a v1 certifying component and to one with protocol v99. -/
theorem C3_validDocument_amended_witness :
    DigitalNotary.validDocument toyCrypto toyCrypto cx3doc cx3vcert =
      .ok (toyCrypto.verify [1] [2] (canonicalBytes
        (cx3doc.extraction ["$component", "$protocol", "$timestamp", "$certificate"]))) ∧
    DigitalNotary.validDocument toyCrypto toyCrypto cx3doc cx3cert =
      .error ⟨.unsupportedProtocol, Option.none⟩ :=
  ⟨(C3_validDocument_amended toyCrypto toyCrypto cx3doc cx3vcert
      (.textV "v1") rfl).2 [1] [2] rfl rfl rfl,
   (C3_validDocument_amended toyCrypto toyCrypto cx3doc cx3cert
      (.textV "v99") rfl).1 (by decide)⟩

/-- C10: the protocol registry has exactly the entry v1 and the active
writing protocol is v1; getProtocols returns the one-element list;
every certificate component, notarized document wrapper and citation the
notary builds carries protocol v1 and a type parameter ending in /v1; and
validDocument and citationMatches fail with unsupportedProtocol for every
other protocol value. -/
theorem C10_single_protocol_v1 (current v1mod : Crypto) :
    DigitalNotary.getProtocols v1mod = .ok ["v1"] ∧
    PROTOCOL = "v1" ∧
    (∀ ts account pk tg ver prev,
      (mkCertComponent ts account pk tg ver prev).getValue "$protocol" =
        some (.textV "v1") ∧
      (mkCertComponent ts account pk tg ver prev).getParameter "$type" =
        some (.nameV "/bali/notary/Certificate/v1")) ∧
    (∀ comp ts cert,
      (mkDocumentWrapper comp ts cert).getValue "$protocol" = some (.textV "v1") ∧
      (mkDocumentWrapper comp ts cert).getParameter "$type" =
        some (.nameV "/bali/notary/Document/v1")) ∧
    (∀ ts tg ver dg,
      (mkCitation ts tg ver dg).getValue "$protocol" = some (.textV "v1") ∧
      (mkCitation ts tg ver dg).getParameter "$type" =
        some (.nameV "/bali/notary/Citation/v1")) ∧
    (∀ doc certArg p, certArg.getValue "$protocol" = some p → p.asString ≠ "v1" →
      DigitalNotary.validDocument current v1mod doc certArg =
        .error ⟨.unsupportedProtocol, Option.none⟩) ∧
    (∀ cit doc p, cit.getValue "$protocol" = some p → p.asString ≠ "v1" →
      DigitalNotary.citationMatches current v1mod cit doc =
        .error ⟨.unsupportedProtocol, Option.none⟩) := by
  refine ⟨rfl, rfl, ?_, ?_, ?_, ?_, ?_⟩
  · intro ts account pk tg ver prev
    exact ⟨rfl, rfl⟩
  · intro comp ts cert
    exact ⟨rfl, rfl⟩
  · intro ts tg ver dg
    exact ⟨rfl, rfl⟩
  · intro doc certArg p hp hne
    simp [DigitalNotary.validDocument, hp, selectModule, PROTOCOL,
          lookupCrypto, PROTOCOLS, hne, Ne.symm hne, baliWrap]
  · intro cit doc p hp hne
    simp [DigitalNotary.citationMatches, hp, selectModule, PROTOCOL,
          lookupCrypto, PROTOCOLS, hne, Ne.symm hne, baliWrap]

/-- A citation carrying protocol v2, used by the C10 witness. -/
def c10cit2 : Value := .catalogV
  (Fields.ofList [("$protocol", .textV "v2"), ("$timestamp", .momentV 0),
                  ("$tag", .tagV 3), ("$version", .versionV [1]),
                  ("$digest", .binaryV [1])])
  (Fields.ofList [("$type", .nameV "/bali/notary/Citation/v2")])

/-- A certifying document carrying protocol v2, used by the C10 witness. -/
def c10cert2 : Value := .catalogV
  (Fields.ofList [("$protocol", .textV "v2"), ("$timestamp", .momentV 0),
                  ("$account", .tagV 2), ("$publicKey", .binaryV [1])])
  .fnil

/-- C10 witness: the registry facts at the toy modules, and the v2
rejections on concrete inputs. -/
theorem C10_single_protocol_v1_witness :
    DigitalNotary.getProtocols toyCrypto = .ok ["v1"] ∧
    DigitalNotary.validDocument toyCrypto toyCrypto cx3doc c10cert2 =
      .error ⟨.unsupportedProtocol, Option.none⟩ ∧
    DigitalNotary.citationMatches toyCrypto toyCrypto c10cit2 cx3doc =
      .error ⟨.unsupportedProtocol, Option.none⟩ :=
  ⟨(C10_single_protocol_v1 toyCrypto toyCrypto).1,
   (C10_single_protocol_v1 toyCrypto toyCrypto).2.2.2.2.2.1 cx3doc c10cert2
     (.textV "v2") rfl (by decide),
   (C10_single_protocol_v1 toyCrypto toyCrypto).2.2.2.2.2.2 c10cit2 cx3doc
     (.textV "v2") rfl (by decide)⟩

/-- C5: the catch wrapper rethrows the specific exception kinds directly
(the caller observes that kind) and wraps any other caught error as an
unexpected exception carrying the original as its cause; in particular an
activateKey mismatch surfaces as invalidCertificate and a citationMatches
protocol failure surfaces as unsupportedProtocol through the wrapper. -/
theorem C5_error_propagation :
    (∀ k c, k ∈ specificKinds →
      baliWrap .unexpected (.structured ⟨k, c⟩) = ⟨k, c⟩) ∧
    (∀ m, baliWrap .unexpected (.raw m) = ⟨.unexpected, some m⟩) ∧
    (∀ (crypto : Crypto) (certArg : Value) (ts : Nat) (w : World)
       (cfg : NotaryConfig) (stored : Value),
      w.nMem = some cfg → cfg.state = .pending → cfg.certificate = some stored →
      certArg.getValue "$component" ≠ some stored →
      (DigitalNotary.activateKey crypto certArg ts w).1 =
        .error ⟨.invalidCertificate, Option.none⟩) ∧
    (∀ (current v1mod : Crypto) (cit doc p : Value),
      cit.getValue "$protocol" = some p → p.asString ≠ "v1" →
      DigitalNotary.citationMatches current v1mod cit doc =
        .error ⟨.unsupportedProtocol, Option.none⟩) := by
  refine ⟨?_, ?_, ?_, ?_⟩
  · intro k c _
    rfl
  · intro m
    rfl
  · intro crypto certArg ts w cfg stored hmem hstate hcert hne
    simp [DigitalNotary.activateKey, Notary.ensureLoaded, hmem, hstate,
          notaryTransition, hcert, hne, baliWrap]
  · intro current v1mod cit doc p hp hne
    simp [DigitalNotary.citationMatches, hp, selectModule, PROTOCOL,
          lookupCrypto, PROTOCOLS, hne, Ne.symm hne, baliWrap]

/-- C5 witness: the wrapper at concrete errors and a concrete mismatching
activateKey call. -/
theorem C5_error_propagation_witness :
    baliWrap .unexpected (.structured ⟨.invalidEvent, Option.none⟩) =
      ⟨.invalidEvent, Option.none⟩ ∧
    baliWrap .unexpected (.raw "boom") = ⟨.unexpected, some "boom"⟩ ∧
    (DigitalNotary.activateKey toyCrypto .noneV 5 c6world).1 =
      .error ⟨.invalidCertificate, Option.none⟩ :=
  ⟨C5_error_propagation.1 .invalidEvent Option.none (by decide),
   C5_error_propagation.2.1 "boom",
   C5_error_propagation.2.2.1 toyCrypto .noneV 5 c6world
     ⟨.pending, some c6stored, Option.none⟩ c6stored rfl rfl rfl (by decide)⟩

/-- C2: in the enabled state with the SSM holding one key pair, refreshKey
returns a notarized certificate whose embedded component carries the same
tag as the current citation, the successor version and the current
citation as previous; whose wrapper cites the current citation; and whose
signature was produced by the rotated-out private key, so it verifies
under the previous certificate's public key. -/
theorem C2_refreshKey_chain_link (crypto v1mod : Crypto)
    (account seed ft ts : Nat) (w : World) (ncfg : NotaryConfig)
    (scfg : SSMConfig) (cit tg : Value) (vs : List Nat) (pub0 priv0 : Bytes)
    (hn : w.nMem = some ncfg) (hst : ncfg.state = .enabled)
    (hcit : ncfg.citation = some cit)
    (htg : cit.getValue "$tag" = some tg)
    (hver : cit.getValue "$version" = some (.versionV vs))
    (hs : w.ssm.mem = some scfg) (hsst : scfg.state = .loneKey)
    (hpub : scfg.publicKey = some pub0) (hpriv : scfg.privateKey = some priv0)
    (hgood : ∀ b p s, crypto.verify p (crypto.sign b p s) b = true) :
    ∀ npub comp unsigned sigB cert,
    npub = (crypto.createKeyPair seed).1 →
    comp = mkCertComponent ts account (.binaryV npub) tg
      (.versionV (nextVersionList vs)) cit →
    unsigned = mkDocumentWrapper comp ts cit →
    sigB = crypto.sign (canonicalBytes unsigned) pub0 priv0 →
    cert = unsigned.setValue "$signature" (.binaryV sigB) →
    (DigitalNotary.refreshKey crypto account seed ft ts w).1 = .ok cert ∧
    cert.getValue "$component" = some comp ∧
    comp.getParameter "$tag" = some tg ∧
    comp.getParameter "$version" = some (.versionV (nextVersionList vs)) ∧
    comp.getParameter "$previous" = some cit ∧
    cert.getValue "$certificate" = some cit ∧
    cert.getValue "$signature" = some (.binaryV sigB) ∧
    (∀ prevComp, prevComp.getValue "$publicKey" = some (.binaryV pub0) →
      prevComp.getValue "$protocol" = some (.textV "v1") →
      DigitalNotary.validDocument crypto v1mod cert prevComp = .ok true) := by
  intro npub comp unsigned sigB cert hnpub hcomp huns hsig hcert2
  subst hnpub hcomp huns hsig hcert2
  refine ⟨?_, ?_, rfl, rfl, rfl, ?_, ?_, ?_⟩
  · simp [DigitalNotary.refreshKey, Notary.ensureLoaded, hn, hst,
          notaryTransition, SSM.rotateKeys, SSM.ensureLoaded, hs, hsst,
          ssmTransition, hpub, hpriv, hcit, htg, hver, SSM.signBytes,
          SSM.storeCfg]
  · simp [mkDocumentWrapper, mkCertComponent, Value.setValue, Value.getValue,
          Fields.ofList, Fields.set, Fields.lookup]
  · simp [mkDocumentWrapper, mkCertComponent, Value.setValue, Value.getValue,
          Fields.ofList, Fields.set, Fields.lookup]
  · simp [mkDocumentWrapper, mkCertComponent, Value.setValue, Value.getValue,
          Fields.ofList, Fields.set, Fields.lookup]
  · intro prevComp hpk hproto
    simp only [DigitalNotary.validDocument]
    simp only [hpk, hproto]
    simp [Value.asString, selectModule, PROTOCOL, SSM.validSignature,
          Value.extraction, Value.getValue, mkDocumentWrapper, mkCertComponent,
          Value.setValue, Fields.ofList, Fields.set, Fields.lookup, hgood]

/-- The toy signature verifies under the public key it was signed with. -/
theorem toySign_verify : ∀ b p s, toyCrypto.verify p (toyCrypto.sign b p s) b = true := by
  intro b p s
  simp [toyCrypto]

/-- The current citation of the C2 witness's enabled notary. -/
def c2cit : Value := mkCitation 1 (.tagV 3) (.versionV [1]) (.binaryV [7])

/-- The C2 witness's notary configuration (enabled with that citation). -/
def c2ncfg : NotaryConfig := ⟨.enabled, Option.none, some c2cit⟩

/-- The C2 witness's SSM configuration (loneKey with one key pair). -/
def c2scfg : SSMConfig := ⟨5, .loneKey, some [1], some [2], Option.none, Option.none⟩

/-- The C2 witness's world. -/
def c2world : World := ⟨some c2ncfg, some c2ncfg, 0, ⟨some c2scfg, some c2scfg, 0⟩⟩

/-- The successor component the C2 witness expects refreshKey to build. -/
def c2comp : Value :=
  mkCertComponent 8 2 (.binaryV [6]) (.tagV 3) (.versionV [2]) c2cit

/-- The unsigned wrapper the C2 witness expects. -/
def c2unsigned : Value := mkDocumentWrapper c2comp 8 c2cit

/-- The signature the rotated-out key produces in the C2 witness. -/
def c2sig : Bytes := toyCrypto.sign (canonicalBytes c2unsigned) [1] [2]

/-- The signed certificate the C2 witness expects refreshKey to return. -/
def c2cert : Value := c2unsigned.setValue "$signature" (.binaryV c2sig)

/-- The previous certificate component of the C2 witness. -/
def c2prev : Value := .catalogV
  (Fields.ofList [("$protocol", .textV "v1"), ("$publicKey", .binaryV [1])])
  .fnil

/-- C2 witness: refreshKey on a concrete enabled world returns the chained
certificate, and it validates under the previous public key. -/
theorem C2_refreshKey_chain_link_witness :
    (DigitalNotary.refreshKey toyCrypto 2 6 9 8 c2world).1 = .ok c2cert ∧
    DigitalNotary.validDocument toyCrypto toyCrypto c2cert c2prev = .ok true := by
  have h := C2_refreshKey_chain_link toyCrypto toyCrypto 2 6 9 8 c2world
    c2ncfg c2scfg c2cit (.tagV 3) [1] [1] [2] rfl rfl rfl (by decide) (by decide)
    rfl rfl rfl rfl toySign_verify [6] c2comp c2unsigned c2sig c2cert
    rfl rfl rfl rfl rfl
  exact ⟨h.1, h.2.2.2.2.2.2.2 c2prev (by decide) (by decide)⟩

end BaliNotary
